import Mathlib

/-!
Verification development for the assignment-analyzer pipeline
(`src/app.py` and `src/app2_24_06_24.py`).

The two Python files are near-identical copies of one linear pipeline:
upload -> extract text -> build prompt -> call an LLM backend -> validate the
returned JSON keys -> render.  This file gives a shallow embedding of that
pipeline.  Python's dynamic values are modelled by `PyVal`; Python exceptions
are modelled by `Except String`; the external libraries (pdfminer, python-docx,
pytesseract, the HTTP clients) are modelled by oracle fields on `UploadedFile`
recording what each library call would return for that file's bytes.
-/

/-- Dynamic (JSON-like) Python values flowing through the pipeline:
strings, integers, lists and string-keyed dicts. -/
inductive PyVal where
  | str (s : String)
  | int (n : Int)
  | list (xs : List PyVal)
  | dict (entries : List (String × PyVal))

/-- The keys of a dict value, in insertion order. -/
def dictKeys (entries : List (String × PyVal)) : List String := entries.map Prod.fst

/-- Is the value a dict (a JSON object / Python mapping)? -/
def isDict : PyVal → Bool
  | .dict _ => true
  | _ => false

/-- Python subscription `v[k]` with a string key: on a dict it looks the key up
(raising `KeyError` when absent); on any non-dict value it raises `TypeError`
(indexing a str with a str, in particular, is a `TypeError`). -/
def pyGetItem (v : PyVal) (k : String) : Except String PyVal :=
  match v with
  | .dict es =>
    match es.find? (fun p => p.1 == k) with
    | some p => .ok p.2
    | none => .error "KeyError"
  | _ => .error "TypeError"

/-- Python subscription `v[i]` with an integer index: on a list it is positional
(raising `IndexError` out of range); on other values it raises. -/
def pyGetIdx (v : PyVal) (i : Nat) : Except String PyVal :=
  match v with
  | .list xs =>
    match xs.get? i with
    | some x => .ok x
    | none => .error "IndexError"
  | _ => .error "TypeError"

/-- Does the first character list occur as a leading segment of the second? -/
def charsLeadSegment : List Char → List Char → Bool
  | [], _ => true
  | _ :: _, [] => false
  | a :: as, b :: bs => a == b && charsLeadSegment as bs

/-- Does the first character list occur as a contiguous segment of the second? -/
def charsSegment (needle : List Char) : List Char → Bool
  | [] => needle.isEmpty
  | b :: bs => charsLeadSegment needle (b :: bs) || charsSegment needle bs

/-- Python substring test `needle in hay` on strings (the empty needle is in
every string), computed over the character lists. -/
def strContainsSub (hay needle : String) : Bool :=
  charsSegment needle.data hay.data

/-- Python `s.startswith(pre)`, computed over the character lists. -/
def strStartsWith (s pre : String) : Bool :=
  charsLeadSegment pre.data s.data

/-- Python membership `key in v` as used by the validation line
`all(key in swot_analysis for key in expected_json_keys)`:
on a dict it is top-level key membership, on a str it is the substring test,
on a list it is element membership.  (On an int Python would raise `TypeError`;
that case never arises in the modelled flows, so it is rendered as `false`.) -/
def pyIn (key : String) : PyVal → Bool
  | .str s => strContainsSub s key
  | .int _ => false
  | .list xs => xs.any (fun v => match v with | .str s => s == key | _ => false)
  | .dict es => (dictKeys es).contains key

/-- The list `expected_json_keys` (src/app.py:159, src/app2_24_06_24.py:100): the keys of
the `expected_json_format` dict, in insertion order. -/
def expected_json_keys : List String :=
  ["Strengths", "Weaknesses", "Opportunities", "Threats", "Total Marks", "Word Count"]

/-- The response-validation check
`all(key in swot_analysis for key in expected_json_keys)`
(src/app.py:200, src/app2_24_06_24.py:139), applied to whatever value
`swot_analysis` holds. -/
def validateSwot (swot : PyVal) : Bool :=
  expected_json_keys.all (fun key => pyIn key swot)

/-- The display step (src/app.py:205-210, src/app2_24_06_24.py:144-149): the
markdown lines subscript `swot_analysis` by each of the six keys; on a non-dict
that raises `TypeError`, on a dict missing a key `KeyError`, both uncaught. -/
def presentSwot (swot : PyVal) : Except String Unit :=
  pyGetItem swot "Word Count" >>= fun _ =>
  pyGetItem swot "Total Marks" >>= fun _ =>
  pyGetItem swot "Strengths" >>= fun _ =>
  pyGetItem swot "Weaknesses" >>= fun _ =>
  pyGetItem swot "Opportunities" >>= fun _ =>
  pyGetItem swot "Threats" >>= fun _ => .ok ()

/-- The response handling of `gemini_json` (src/app.py:71-77): given the parsed
HTTP response body `response_data`, it extracts
`response_data["candidates"][0]["content"]["parts"][0]["text"]` and returns
that value verbatim.  Note there is no `json.loads` on the extracted text:
the function returns the raw reply text, and subscription failures along the
path (e.g. a body without `"candidates"`) raise uncaught exceptions. -/
def gemini_json_result (response_data : PyVal) : Except String PyVal :=
  pyGetItem response_data "candidates" >>= fun c =>
  pyGetIdx c 0 >>= fun c0 =>
  pyGetItem c0 "content" >>= fun ct =>
  pyGetItem ct "parts" >>= fun ps =>
  pyGetIdx ps 0 >>= fun p0 =>
  pyGetItem p0 "text"

/-- The `try`/`except` of `process_images_gemini` (src/app.py:105-112): the call
and the `json.loads` of its reply text run inside the `try`; `callResult` is
`.ok v` when everything succeeded with parsed value `v`, and `.error e` when any
exception `e` was raised inside the `try`, which the `except` converts into the
payload `{"error": str(e)}`. -/
def process_images_gemini (callResult : Except String PyVal) : PyVal :=
  match callResult with
  | .ok v => v
  | .error e => .dict [("error", .str e)]

/-- An uploaded file together with oracle fields recording what each external
library call would return on its bytes. -/
structure UploadedFile where
  /-- The `file.name` attribute. -/
  name : String
  /-- The `file.type` attribute, the declared media type. -/
  type : String
  /-- What `pdfminer.high_level.extract_text` returns on this file. -/
  pdfTextLayer : String
  /-- The paragraph texts `python-docx` yields, in document order. -/
  docxParagraphs : List String
  /-- What `pytesseract.image_to_string(Image.open(file))` returns. -/
  ocrText : String
  /-- The result of `file.read().decode("utf-8")`: `none` means the bytes are not valid
  UTF-8 and the decode raises `UnicodeDecodeError`. -/
  utf8Decoded : Option String
  /-- Per-page OCR results for the rendered page images of this file, in page
  order (what OCR would recognize on each page, were it run). -/
  pageOcrTexts : List String
  /-- The parsed HTTP response body `response.json()` the Gemini generative
  endpoint returns for this file's request in `gemini_json`; `.error e` models
  a transport or JSON-decode exception raised by the call. -/
  geminiResponse : Except String PyVal
  /-- The value `json.loads(completion.choices[0].message.content)` of
  `call_groq_for_swot` for this file's request; `.error e` models an exception
  raised by the call or the parse. -/
  groqParsed : Except String PyVal

/-- The `extract_text` function of src/app.py:25-34: PDFs go to pdfminer's text-layer
extraction, DOCX to paragraph concatenation (one per line), and every other
declared type - images included - falls through to decoding the raw bytes as
UTF-8.  There is no OCR branch and no unsupported-type error in this variant. -/
def extract_text_app (file : UploadedFile) : Except String String :=
  if file.type = "application/pdf" then
    .ok file.pdfTextLayer
  else if file.type = "application/vnd.openxmlformats-officedocument.wordprocessingml.document" then
    .ok (String.intercalate "\n" file.docxParagraphs)
  else
    match file.utf8Decoded with
    | some t => .ok t
    | none => .error "UnicodeDecodeError"

/-- The `extract_text` function of src/app2_24_06_24.py:25-36: like the app.py variant but
with an extra branch running OCR directly on files whose declared type starts
with `image/`.  PDFs still get the direct text-layer extraction only - a blank
result is returned as-is, with no OCR fallback. -/
def extract_text_app2 (file : UploadedFile) : Except String String :=
  if file.type = "application/pdf" then
    .ok file.pdfTextLayer
  else if file.type = "application/vnd.openxmlformats-officedocument.wordprocessingml.document" then
    .ok (String.intercalate "\n" file.docxParagraphs)
  else if strStartsWith file.type "image/" then
    .ok file.ocrText
  else
    match file.utf8Decoded with
    | some t => .ok t
    | none => .error "UnicodeDecodeError"

/-- Python whitespace for `str.split()` with no arguments (ASCII range). -/
def pyIsSpace (c : Char) : Bool :=
  c == ' ' || c == '\t' || c == '\n' || c == '\r' || c == '\x0b' || c == '\x0c'

/-- Worker for `str.split()`: walk the characters keeping the (reversed)
current token; whitespace closes the current token, empty pieces are never
emitted. -/
def pySplitAux : List Char → List Char → List String
  | [], [] => []
  | [], acc => [String.mk acc.reverse]
  | c :: cs, acc =>
    if pyIsSpace c then
      match acc with
      | [] => pySplitAux cs []
      | _ :: _ => String.mk acc.reverse :: pySplitAux cs []
    else
      pySplitAux cs (c :: acc)

/-- Python `text.split()` with no argument: split on runs of whitespace,
discarding leading/trailing whitespace and empty pieces. -/
def pySplit (s : String) : List String := pySplitAux s.data []

/-- The assignment `word_count = len(text.split())` (src/app.py:184, src/app2_24_06_24.py:125). -/
def word_count (text : String) : Nat := (pySplit text).length

/-- Specification-side characterization of "number of whitespace-delimited
tokens", written from the spec's words and independently of `str.split()`:
the number of maximal non-whitespace runs, counted left to right.  The flag
is true at the start of the text and after each whitespace character. -/
def countTokenRuns : List Char → Bool → Nat
  | [], _ => 0
  | c :: cs, atBoundary =>
    (if !pyIsSpace c && atBoundary then 1 else 0) + countTokenRuns cs (pyIsSpace c)

/-- The string `grading_criteria.format(total_marks=total_marks)`
(src/app.py:162-170, interpolated at src/app.py:189). -/
def grading_criteria (total_marks : Nat) : String :=
  "\nGrading Criteria:\n1. Content quality (40%): How well the text addresses the topic.\n2. Clarity and coherence (30%): How clear and logical the text is.\n3. Grammar and language (20%): Correct use of grammar and language.\n4. Originality (10%): Uniqueness and originality of the content.\n\nUse these criteria to assign marks out of " ++ toString total_marks ++ ".\n"

/-- The Text-only user prompt f-string (src/app.py:189, src/app2_24_06_24.py:130):
`f"Text: {text}\nTotal Marks: {total_marks}\nWord Count: {word_count}\n{criteria}"`,
with `word_count` the whitespace-split length of the extracted text. -/
def user_prompt_text (text : String) (total_marks : Nat) : String :=
  "Text: " ++ text ++ "\nTotal Marks: " ++ toString total_marks ++ "\nWord Count: "
    ++ toString (word_count text) ++ ("\n" ++ grading_criteria total_marks)

/-- Per-file outcome of one iteration of the processing loop, as surfaced to
the user: the "No text found" skip notice, the "Missing keys" notice, or a
successful presentation of the analysis value. -/
inductive FileOutcome where
  | skippedNoText
  | invalidKeys
  | presented (swot : PyVal)

/-- Observable trace of one batch run: the per-file notices/results in order,
the progress-bar updates in order (recorded by the numerator `idx + 1` of the
emitted fraction `(idx + 1) / len(uploaded_files)`; the denominator is the
fixed batch length, so monotonicity of the fractions is monotonicity of these
numerators), and how many backend calls were issued. -/
structure BatchTrace where
  outcomes : List (String × FileOutcome)
  progressUpdates : List Nat
  backendCalls : Nat

/-- One iteration of the Text-only processing loop body
(src/app.py:179-213, src/app2_24_06_24.py:120-152), parameterized by the
extractor and by the backend call; `.error e` is an uncaught Python exception
escaping the loop.  Steps: extract the text; `if not text:` emit the skip
notice and continue (for a `str` this tests emptiness); otherwise issue the
backend call, validate the returned keys, and either emit the missing-keys
notice or present the analysis and advance the progress bar - the progress
update is only reached on the fully successful path, because both notice
branches `continue` before it. -/
def runFile (ex : UploadedFile → Except String String)
    (bc : UploadedFile → Except String PyVal)
    (idx : Nat) (tr : BatchTrace) (file : UploadedFile) : Except String BatchTrace :=
  match ex file with
  | .error e => .error e
  | .ok text =>
    if text = "" then
      .ok { tr with outcomes := tr.outcomes ++ [(file.name, .skippedNoText)] }
    else
      match bc file with
      | .error e => .error e
      | .ok swot =>
        if validateSwot swot then
          match presentSwot swot with
          | .error e => .error e
          | .ok _ =>
            .ok { tr with
                  outcomes := tr.outcomes ++ [(file.name, .presented swot)]
                  progressUpdates := tr.progressUpdates ++ [idx + 1]
                  backendCalls := tr.backendCalls + 1 }
        else
          .ok { tr with
                outcomes := tr.outcomes ++ [(file.name, .invalidKeys)]
                backendCalls := tr.backendCalls + 1 }

/-- The `for idx, file in enumerate(uploaded_files):` loop: files are processed
one at a time in upload order; an uncaught exception in any iteration aborts
the whole batch (the remaining files are never reached and no trace is
produced). -/
def runBatch (ex : UploadedFile → Except String String)
    (bc : UploadedFile → Except String PyVal) :
    Nat → BatchTrace → List UploadedFile → Except String BatchTrace
  | _, tr, [] => .ok tr
  | idx, tr, file :: rest =>
    match runFile ex bc idx tr file with
    | .error e => .error e
    | .ok tr2 => runBatch ex bc (idx + 1) tr2 rest

/-- The backend call of app.py's Text-only branch (src/app.py:190): issue the
HTTP request (the per-file oracle `geminiResponse` is its parsed body, or the
exception it raised) and run `gemini_json`'s response handling on it. -/
def app_gemini_call (file : UploadedFile) : Except String PyVal :=
  match file.geminiResponse with
  | .error e => .error e
  | .ok rd => gemini_json_result rd

/-- The backend call of app2's Text-only branch (src/app2_24_06_24.py:131):
`call_groq_for_swot`, whose parsed result (or raised exception) is the
per-file oracle `groqParsed`. -/
def app2_groq_call (file : UploadedFile) : Except String PyVal :=
  file.groqParsed

/-- app.py's Text-only batch run, from a fresh progress bar. -/
def processBatchAppText (files : List UploadedFile) : Except String BatchTrace :=
  runBatch extract_text_app app_gemini_call 0 ⟨[], [], 0⟩ files

/-- app2's Text-only batch run, from a fresh progress bar. -/
def processBatchApp2Text (files : List UploadedFile) : Except String BatchTrace :=
  runBatch extract_text_app2 app2_groq_call 0 ⟨[], [], 0⟩ files

/-- One Vision-branch backend invocation: the image list handed to
`process_images_gemini` and the page prompt passed with it. -/
structure VisionCall where
  images : List String
  prompt : String

/-- The Vision-branch per-page loop of src/app.py:194-197: iterate over the
rendered page images; each iteration builds that page's user prompt (from that
page's base64 encoding; `mkPrompt` maps the page to its prompt) and calls
`process_images_gemini` with the full list `images` of all pages, overwriting
`swot_analysis` each time.  Returns the calls issued in order and the final
value of `swot_analysis` (`none` models the variable never being assigned when
there are no pages; the backend oracle `bk` maps a call's arguments to its
returned value). -/
def visionLoop (mkPrompt : String → String) (bk : List String → String → PyVal)
    (allImages : List String) : List String → Option PyVal → List VisionCall × Option PyVal
  | [], last => ([], last)
  | p :: rest, _ =>
    let prompt := mkPrompt p
    let res := bk allImages prompt
    let next := visionLoop mkPrompt bk allImages rest (some res)
    (⟨allImages, prompt⟩ :: next.1, next.2)

/-- The whole Vision branch of src/app.py:191-197 after `pdf_to_images`:
run the per-page loop over the rendered images, starting with `swot_analysis`
unassigned; only the value left in `swot_analysis` after the loop reaches the
key validation at src/app.py:200. -/
def visionBranch (mkPrompt : String → String) (bk : List String → String → PyVal)
    (images : List String) : List VisionCall × Option PyVal :=
  visionLoop mkPrompt bk images images none

/-- The session-and-secrets state app2 consults before and during processing. -/
structure App2Session where
  /-- The `analysis_type` selectbox value. -/
  analysis_type : String
  /-- The value `st.session_state.openai_api_key` if the user typed one, else `none`
  (the key `'openai_api_key'` is absent from `st.session_state`). -/
  openai_api_key : Option String
  /-- The secret `st.secrets["groq"]["api_key"]`, read at program start into the
  module-level `groq_client` (src/app2_24_06_24.py:14-17). -/
  groq_secret_key : String

/-- Which credential the backend call issued inside app2's loop uses. -/
inductive App2Key where
  | groqSecret (key : String)
  | openaiSession (key : String)
  deriving DecidableEq

/-- The credential the loop's backend call uses, by mode
(src/app2_24_06_24.py:128-136): Text-only calls `call_groq_for_swot`, which
goes through the module-level `groq_client` built from the secret-store key;
Vision calls `call_openai_for_swot` with the session-supplied OpenAI key. -/
def app2_call_key (s : App2Session) : App2Key :=
  if s.analysis_type = "Text only" then .groqSecret s.groq_secret_key
  else .openaiSession (s.openai_api_key.getD "")

/-- What app2 does when files are uploaded. -/
inductive App2Action where
  | warnMissingKey
  | runLoop (keyUsed : App2Key)
  deriving DecidableEq

/-- The top of app2's processing block (src/app2_24_06_24.py:114-117):
with files uploaded, warn and skip processing iff Vision mode is selected and
`'openai_api_key' not in st.session_state`; otherwise run the loop, whose
backend call uses the mode's credential. -/
def app2_dispatch (s : App2Session) (hasFiles : Bool) : Option App2Action :=
  if hasFiles then
    if s.analysis_type = "Vision" && s.openai_api_key.isNone then
      some .warnMissingKey
    else
      some (.runLoop (app2_call_key s))
  else
    none

/-- A baseline plain-text upload; the concrete files below adjust fields. -/
def baseFile : UploadedFile :=
  { name := "f.txt", type := "text/plain", pdfTextLayer := "", docxParagraphs := [],
    ocrText := "", utf8Decoded := none, pageOcrTexts := [],
    geminiResponse := .error "ConnectionError", groqParsed := .error "ConnectionError" }

/-- A Gemini generative-endpoint response body whose single candidate carries
the given reply text at `candidates[0].content.parts[0].text`. -/
def sampleGeminiEnvelope (replyText : String) : PyVal :=
  .dict [("candidates", .list [.dict [("content",
      .dict [("parts", .list [.dict [("text", .str replyText)]])])]])]

/-- C1: the key-set validator passes a response mapping iff every key of the
expected set is present as a top-level key (membership check only,
case-sensitive); a mapping whose key set has exactly the expected members (in
any order) passes, and a mapping missing at least one expected key fails. -/
theorem c1_validator_pass_iff_keys_present (es : List (String × PyVal)) :
    (validateSwot (.dict es) = true ↔
        ∀ k ∈ expected_json_keys, (dictKeys es).contains k = true)
    ∧ ((∀ k : String, (dictKeys es).contains k = expected_json_keys.contains k) →
        validateSwot (.dict es) = true)
    ∧ (∀ k ∈ expected_json_keys, (dictKeys es).contains k = false →
        validateSwot (.dict es) = false) := by
  have hval : validateSwot (.dict es)
      = expected_json_keys.all (fun k => (dictKeys es).contains k) := rfl
  refine ⟨?_, ?_, ?_⟩
  · rw [hval]; exact List.all_eq_true
  · intro hset
    rw [hval, List.all_eq_true]
    intro k hk
    rw [hset k]
    simp only [expected_json_keys, List.mem_cons, List.not_mem_nil, or_false] at hk
    rcases hk with rfl | rfl | rfl | rfl | rfl | rfl <;> rfl
  · intro k hk hfalse
    rw [hval]
    cases hall : expected_json_keys.all (fun k => (dictKeys es).contains k) with
    | false => rfl
    | true =>
      have h2 : (dictKeys es).contains k = true := List.all_eq_true.mp hall k hk
      rw [hfalse] at h2
      exact h2.symm

/-- Worker lemma for C8: the length of the split produced by `pySplitAux`
equals the token-run count, offset by one when a token is currently open. -/
lemma pySplitAux_length (l : List Char) :
    ∀ acc : List Char, (pySplitAux l acc).length
      = countTokenRuns l acc.isEmpty + (if acc.isEmpty then 0 else 1) := by
  induction l with
  | nil =>
    intro acc
    cases acc <;> simp [pySplitAux, countTokenRuns]
  | cons c cs ih =>
    intro acc
    cases hc : pyIsSpace c with
    | true =>
      cases acc with
      | nil => simp [pySplitAux, countTokenRuns, hc, ih]
      | cons a as => simp [pySplitAux, countTokenRuns, hc, ih]
    | false =>
      cases acc with
      | nil => simp [pySplitAux, countTokenRuns, hc, ih]; omega
      | cons a as => simp [pySplitAux, countTokenRuns, hc, ih]

/-- The count `len(text.split())` counts exactly the maximal non-whitespace runs. -/
lemma word_count_eq_runs (text : String) :
    word_count text = countTokenRuns text.data true := by
  have h := pySplitAux_length text.data []
  simpa [word_count, pySplit] using h

/-- C8: the word count embedded in the evaluation request's user prompt is
`len(text.split())`, which equals the number of whitespace-delimited tokens
(maximal non-whitespace runs) of the extracted text; in particular the text
"Alpha Beta Gamma" yields word count 3. -/
theorem c8_word_count_is_token_count (text : String) (total_marks : Nat) :
    (∃ pre post, user_prompt_text text total_marks
        = pre ++ toString (word_count text) ++ post)
    ∧ word_count text = countTokenRuns text.data true
    ∧ word_count "Alpha Beta Gamma" = 3 := by
  refine ⟨⟨"Text: " ++ text ++ "\nTotal Marks: " ++ toString total_marks ++ "\nWord Count: ",
      "\n" ++ grading_criteria total_marks, rfl⟩,
    word_count_eq_runs text, by decide⟩

/-- The reply text of a well-formed SWOT response: a JSON object carrying all
six expected keys. -/
def sampleReplyText : String :=
  "\x7b\"Strengths\": \"s\", \"Weaknesses\": \"w\", \"Opportunities\": \"o\", \"Threats\": \"t\", \"Total Marks\": 90, \"Word Count\": 5\x7d"

/-- A Text-only upload whose Gemini call succeeds with `sampleReplyText`. -/
def essayFile : UploadedFile :=
  { baseFile with
    name := "essay.txt"
    utf8Decoded := some "An essay"
    geminiResponse := .ok (sampleGeminiEnvelope sampleReplyText) }

/-- C2: code bug.  `gemini_json` extracts the reply text at
`candidates[0].content.parts[0].text` but returns it verbatim - there is no
`json.loads` - so in app.py's Text-only path the key-set validator receives the
raw reply string, not a mapping; the substring-based membership check then
passes on a well-formed reply, and the display's dict subscriptions on the
string raise an uncaught `TypeError` that aborts the run. -/
theorem c2_reply_not_reparsed_before_validation :
    gemini_json_result (sampleGeminiEnvelope sampleReplyText) = .ok (.str sampleReplyText)
    ∧ isDict (.str sampleReplyText) = false
    ∧ validateSwot (.str sampleReplyText) = true
    ∧ processBatchAppText [essayFile] = .error "TypeError" :=
  ⟨rfl, rfl, by decide, rfl⟩

/-- A PDF upload whose text layer is blank but whose rendered pages would OCR
to "HELLO" and "WORLD". -/
def scannedPdf : UploadedFile :=
  { baseFile with
    name := "scan.pdf"
    type := "application/pdf"
    pdfTextLayer := ""
    pageOcrTexts := ["HELLO", "WORLD"] }

/-- C3 counterexample: for a PDF whose direct text-layer extraction is blank,
both extractors return the blank result as-is; the OCR fallback the claim
describes (page rendering plus OCR, single-space concatenation in page order)
is never taken, so the result differs from the claimed "HELLO WORLD". -/
theorem c3_counterexample_no_ocr_fallback :
    extract_text_app scannedPdf = .ok ""
    ∧ extract_text_app2 scannedPdf = .ok ""
    ∧ String.intercalate " " scannedPdf.pageOcrTexts = "HELLO WORLD"
    ∧ ("" : String) ≠ "HELLO WORLD" :=
  ⟨rfl, rfl, rfl, by decide⟩

/-- C3 amended: for every file whose declared media type is PDF, both variants
perform direct text-layer extraction only and return its result unchanged,
whether or not it is blank; no OCR fallback exists. -/
theorem c3_amended_pdf_direct_extraction_only (file : UploadedFile)
    (h : file.type = "application/pdf") :
    extract_text_app file = .ok file.pdfTextLayer
    ∧ extract_text_app2 file = .ok file.pdfTextLayer := by
  constructor <;> simp [extract_text_app, extract_text_app2, h]

/-- Witness for the C3 amended theorem at the concrete scanned PDF. -/
theorem c3_amended_pdf_direct_extraction_only_witness :
    extract_text_app scannedPdf = .ok ""
    ∧ extract_text_app2 scannedPdf = .ok "" :=
  c3_amended_pdf_direct_extraction_only scannedPdf rfl

/-- An upload of an unrecognized declared type whose bytes decode as UTF-8. -/
def zipFile : UploadedFile :=
  { baseFile with
    name := "a.zip"
    type := "application/zip"
    utf8Decoded := some "hello" }

/-- C7 counterexample: a file with the unrecognized media type
`application/zip` does not fail with an `UnsupportedMediaType` error; both
extractors fall through to the plain-text branch and produce the UTF-8 decoded
text "hello". -/
theorem c7_counterexample_unrecognized_type_produces_text :
    extract_text_app zipFile = .ok "hello"
    ∧ extract_text_app2 zipFile = .ok "hello"
    ∧ ("hello" : String) ≠ "" :=
  ⟨rfl, rfl, by decide⟩

/-- C7 amended: every file whose declared media type is none of the recognized
ones (PDF, the DOCX type, and for app2 the `image/` types) is handled by the
plain-text branch: the raw bytes are decoded as UTF-8, yielding that text, and
the only possible failure is an uncaught `UnicodeDecodeError` on invalid UTF-8;
no `UnsupportedMediaType` error exists. -/
theorem c7_amended_unrecognized_type_decodes_utf8 (file : UploadedFile)
    (h1 : file.type ≠ "application/pdf")
    (h2 : file.type ≠ "application/vnd.openxmlformats-officedocument.wordprocessingml.document")
    (h3 : strStartsWith file.type "image/" = false) :
    extract_text_app file
      = (match file.utf8Decoded with
         | some t => Except.ok t
         | none => Except.error "UnicodeDecodeError")
    ∧ extract_text_app2 file
      = (match file.utf8Decoded with
         | some t => Except.ok t
         | none => Except.error "UnicodeDecodeError") := by
  constructor <;> simp [extract_text_app, extract_text_app2, h1, h2, h3]

/-- Witness for the C7 amended theorem at the concrete zip upload. -/
theorem c7_amended_unrecognized_type_decodes_utf8_witness :
    extract_text_app zipFile = .ok "hello"
    ∧ extract_text_app2 zipFile = .ok "hello" :=
  c7_amended_unrecognized_type_decodes_utf8 zipFile (by decide) (by decide) rfl

/-- Unfolding equation for one step of the batch loop. -/
lemma runBatch_cons (ex : UploadedFile → Except String String)
    (bc : UploadedFile → Except String PyVal) (idx : Nat) (tr : BatchTrace)
    (f : UploadedFile) (rest : List UploadedFile) :
    runBatch ex bc idx tr (f :: rest)
      = match runFile ex bc idx tr f with
        | .error e => .error e
        | .ok tr2 => runBatch ex bc (idx + 1) tr2 rest := rfl

/-- A file whose extraction yields exactly the empty string. -/
def emptyFile : UploadedFile :=
  { baseFile with
    name := "empty.txt"
    utf8Decoded := some "" }

/-- A file whose extraction yields a whitespace-only, non-empty string, and
whose backend reply text lacks the expected keys. -/
def wsFile : UploadedFile :=
  { baseFile with
    name := "ws.txt"
    utf8Decoded := some " "
    geminiResponse := .ok (sampleGeminiEnvelope "no swot keys") }

/-- C4 counterexample: a file whose extracted text is the whitespace-only
string " " is not skipped - `if not text:` only fires on the empty string -
so the backend is called for it (one backend call in the trace) and its
outcome is the missing-keys notice, not the skip notice. -/
theorem c4_counterexample_whitespace_not_skipped :
    processBatchAppText [wsFile] = .ok ⟨[("ws.txt", .invalidKeys)], [], 1⟩
    ∧ FileOutcome.invalidKeys ≠ FileOutcome.skippedNoText
    ∧ (1 : Nat) ≠ 0 :=
  ⟨rfl, by simp, by decide⟩

/-- C4 amended: only a file whose extracted text is exactly the empty string
is skipped: in both variants the loop then records the skip notice for that
file and continues with the remaining files, with the backend-call count and
the progress updates unchanged. -/
theorem c4_amended_empty_extraction_skips (idx : Nat) (tr : BatchTrace)
    (f : UploadedFile) (rest : List UploadedFile)
    (h1 : extract_text_app f = .ok "") (h2 : extract_text_app2 f = .ok "") :
    runBatch extract_text_app app_gemini_call idx tr (f :: rest)
      = runBatch extract_text_app app_gemini_call (idx + 1)
          { tr with outcomes := tr.outcomes ++ [(f.name, .skippedNoText)] } rest
    ∧ runBatch extract_text_app2 app2_groq_call idx tr (f :: rest)
      = runBatch extract_text_app2 app2_groq_call (idx + 1)
          { tr with outcomes := tr.outcomes ++ [(f.name, .skippedNoText)] } rest := by
  constructor <;> rw [runBatch_cons] <;> simp [runFile, h1, h2]

/-- Witness for the C4 amended theorem: a singleton batch with an empty
extraction records exactly the skip notice and stops. -/
theorem c4_amended_empty_extraction_skips_witness :
    runBatch extract_text_app app_gemini_call 0 ⟨[], [], 0⟩ [emptyFile]
      = runBatch extract_text_app app_gemini_call 1
          ⟨[("empty.txt", .skippedNoText)], [], 0⟩ []
    ∧ runBatch extract_text_app2 app2_groq_call 0 ⟨[], [], 0⟩ [emptyFile]
      = runBatch extract_text_app2 app2_groq_call 1
          ⟨[("empty.txt", .skippedNoText)], [], 0⟩ [] :=
  c4_amended_empty_extraction_skips 0 ⟨[], [], 0⟩ emptyFile [] rfl rfl

/-- A file whose Gemini HTTP call raises a transport error. -/
def badNetFile : UploadedFile :=
  { baseFile with
    name := "bad.txt"
    utf8Decoded := some "hi"
    geminiResponse := .error "ConnectionError" }

/-- A file whose Gemini call succeeds but returns a body without
`"candidates"` (e.g. an error payload), and a healthy follow-up file. -/
def rateLimitedFile : UploadedFile :=
  { baseFile with
    name := "rl.txt"
    utf8Decoded := some "essay text"
    geminiResponse := .ok (.dict [("error", .str "rate limited")]) }

/-- The entries of a full SWOT mapping carrying all six expected keys. -/
def fullSwotEntries : List (String × PyVal) :=
  [("Strengths", .str "s"), ("Weaknesses", .str "w"),
    ("Opportunities", .str "o"), ("Threats", .str "t"),
    ("Total Marks", .int 80), ("Word Count", .int 5)]

/-- A full SWOT mapping carrying all six expected keys. -/
def fullSwotDict : PyVal := .dict fullSwotEntries

/-- A file whose Groq call succeeds with a well-formed parsed SWOT mapping. -/
def goodGroqFile : UploadedFile :=
  { baseFile with
    name := "good.txt"
    utf8Decoded := some "good essay"
    groqParsed := .ok fullSwotDict }

/-- C5 counterexample: in app.py's Text-only path, a backend reply whose body
lacks the `"candidates"` structure raises an uncaught `KeyError` that aborts
the whole batch: no per-file notice is recorded and the second file is never
processed (no trace at all is produced). -/
theorem c5_counterexample_error_aborts_batch :
    processBatchAppText [rateLimitedFile, goodGroqFile] = .error "KeyError"
    ∧ ∀ tr : BatchTrace, processBatchAppText [rateLimitedFile, goodGroqFile] ≠ .ok tr := by
  refine ⟨rfl, fun tr h => ?_⟩
  rw [show processBatchAppText [rateLimitedFile, goodGroqFile]
      = .error "KeyError" from rfl] at h
  exact Except.noConfusion h

/-- A file whose Groq call raises a transport error. -/
def badGroqFile : UploadedFile :=
  { baseFile with
    name := "badgroq.txt"
    utf8Decoded := some "hi"
    groqParsed := .error "ConnectionError" }

/-- C5 amended: only app.py's Vision backend call catches exceptions,
converting them into an `error` payload that then fails key validation with a
per-file notice; every other error while processing a file propagates uncaught
out of the loop and aborts the whole batch, with the remaining files
unprocessed: an exception of the Text-only backend call in app.py (the Gemini
path, file `f`), an exception of the Text-only backend call in app2 (the Groq
path, file `f2`), and an extraction failure in either variant (file `g`). -/
theorem c5_amended_only_vision_catches (idx : Nat) (tr : BatchTrace)
    (rest : List UploadedFile) (f f2 g : UploadedFile)
    (e e2 e3 e4 t t2 : String)
    (hx : extract_text_app f = .ok t) (ht : t ≠ "")
    (hr : f.geminiResponse = .error e)
    (hx2 : extract_text_app2 f2 = .ok t2) (ht2 : t2 ≠ "")
    (hg : f2.groqParsed = .error e2)
    (hgx : extract_text_app g = .error e3)
    (hgx2 : extract_text_app2 g = .error e4) :
    runBatch extract_text_app app_gemini_call idx tr (f :: rest) = .error e
    ∧ runBatch extract_text_app2 app2_groq_call idx tr (f2 :: rest) = .error e2
    ∧ runBatch extract_text_app app_gemini_call idx tr (g :: rest) = .error e3
    ∧ runBatch extract_text_app2 app2_groq_call idx tr (g :: rest) = .error e4
    ∧ process_images_gemini (.error e) = .dict [("error", .str e)]
    ∧ validateSwot (.dict [("error", .str e)]) = false := by
  refine ⟨?_, ?_, ?_, ?_, rfl, rfl⟩
  · have hbc : app_gemini_call f = .error e := by simp [app_gemini_call, hr]
    rw [runBatch_cons]
    simp [runFile, hx, ht, hbc]
  · have hbc : app2_groq_call f2 = .error e2 := by simp [app2_groq_call, hg]
    rw [runBatch_cons]
    simp [runFile, hx2, ht2, hbc]
  · rw [runBatch_cons]
    simp [runFile, hgx]
  · rw [runBatch_cons]
    simp [runFile, hgx2]

/-- Witness for the C5 amended theorem: a concrete Gemini transport failure, a
concrete Groq transport failure, and a concrete UTF-8 decode failure each
abort their two-file batch with the second file unprocessed. -/
theorem c5_amended_only_vision_catches_witness :
    runBatch extract_text_app app_gemini_call 0 ⟨[], [], 0⟩ [badNetFile, baseFile]
      = .error "ConnectionError"
    ∧ runBatch extract_text_app2 app2_groq_call 0 ⟨[], [], 0⟩ [badGroqFile, baseFile]
      = .error "ConnectionError"
    ∧ runBatch extract_text_app app_gemini_call 0 ⟨[], [], 0⟩ [baseFile, baseFile]
      = .error "UnicodeDecodeError"
    ∧ runBatch extract_text_app2 app2_groq_call 0 ⟨[], [], 0⟩ [baseFile, baseFile]
      = .error "UnicodeDecodeError"
    ∧ process_images_gemini (.error "ConnectionError")
      = .dict [("error", .str "ConnectionError")]
    ∧ validateSwot (.dict [("error", .str "ConnectionError")]) = false :=
  c5_amended_only_vision_catches 0 ⟨[], [], 0⟩ [baseFile] badNetFile badGroqFile
    baseFile "ConnectionError" "ConnectionError" "UnicodeDecodeError"
    "UnicodeDecodeError" "hi" "hi" rfl (by decide) rfl rfl (by decide) rfl rfl rfl

/-- Is this outcome a successful presentation? -/
def outcomeIsPresented : FileOutcome → Bool
  | .presented _ => true
  | _ => false

/-- How many outcomes in the list are successful presentations. -/
def presentedCount (l : List (String × FileOutcome)) : Nat :=
  (l.filter (fun p => outcomeIsPresented p.2)).length

/-- Appending one outcome record changes the presented count by one exactly
when that outcome is a presentation. -/
lemma presentedCount_append (l : List (String × FileOutcome))
    (x : String × FileOutcome) :
    presentedCount (l ++ [x])
      = presentedCount l + (if outcomeIsPresented x.2 then 1 else 0) := by
  simp only [presentedCount, List.filter_append, List.length_append]
  cases hx : outcomeIsPresented x.2 <;> simp [List.filter_cons, hx]

/-- A successful loop iteration either leaves the progress updates and the
presented count unchanged (skip or missing-keys notice), or appends exactly
the update `idx + 1` and one presented outcome (the fully successful path). -/
lemma runFile_ok_trace (ex : UploadedFile → Except String String)
    (bc : UploadedFile → Except String PyVal) (idx : Nat)
    (tr tr2 : BatchTrace) (f : UploadedFile)
    (h : runFile ex bc idx tr f = .ok tr2) :
    (tr2.progressUpdates = tr.progressUpdates
      ∧ presentedCount tr2.outcomes = presentedCount tr.outcomes)
    ∨ (tr2.progressUpdates = tr.progressUpdates ++ [idx + 1]
      ∧ presentedCount tr2.outcomes = presentedCount tr.outcomes + 1) := by
  unfold runFile at h
  split at h
  · exact Except.noConfusion h
  · split at h
    · injection h with h2
      subst h2
      left
      exact ⟨rfl, by simp [presentedCount_append, outcomeIsPresented]⟩
    · split at h
      · exact Except.noConfusion h
      · split at h
        · split at h
          · exact Except.noConfusion h
          · injection h with h2
            subst h2
            right
            exact ⟨rfl, by simp [presentedCount_append, outcomeIsPresented]⟩
        · injection h with h2
          subst h2
          left
          exact ⟨rfl, by simp [presentedCount_append, outcomeIsPresented]⟩

/-- Invariant of the batch loop: from a trace whose recorded progress updates
are strictly increasing and bounded by the next index, a successful run keeps
them strictly increasing and bounded, and adds exactly one update per
presented outcome. -/
lemma runBatch_progress_invariant (ex : UploadedFile → Except String String)
    (bc : UploadedFile → Except String PyVal) :
    ∀ (files : List UploadedFile) (idx : Nat) (tr0 tr : BatchTrace),
      runBatch ex bc idx tr0 files = .ok tr →
      List.Chain' (· < ·) tr0.progressUpdates →
      (∀ x ∈ tr0.progressUpdates, x ≤ idx) →
      List.Chain' (· < ·) tr.progressUpdates
      ∧ (∀ x ∈ tr.progressUpdates, x ≤ idx + files.length)
      ∧ tr.progressUpdates.length + presentedCount tr0.outcomes
          = tr0.progressUpdates.length + presentedCount tr.outcomes := by
  intro files
  induction files with
  | nil =>
    intro idx tr0 tr h hch hle
    have heq : tr0 = tr := by
      have h2 : Except.ok (ε := String) tr0 = .ok tr := h
      injection h2
    subst heq
    exact ⟨hch, fun x hx => Nat.le_trans (hle x hx) (Nat.le_add_right idx 0),
      by omega⟩
  | cons f rest ih =>
    intro idx tr0 tr h hch hle
    rw [runBatch_cons] at h
    cases hf : runFile ex bc idx tr0 f with
    | error e =>
      rw [hf] at h
      exact Except.noConfusion h
    | ok tr2 =>
      rw [hf] at h
      have h2 : runBatch ex bc (idx + 1) tr2 rest = .ok tr := h
      rcases runFile_ok_trace ex bc idx tr0 tr2 f hf with ⟨hp, hc⟩ | ⟨hp, hc⟩
      · have hch2 : List.Chain' (· < ·) tr2.progressUpdates := by
          rw [hp]; exact hch
        have hle2 : ∀ x ∈ tr2.progressUpdates, x ≤ idx + 1 := by
          intro x hx
          rw [hp] at hx
          exact Nat.le_trans (hle x hx) (Nat.le_succ idx)
        obtain ⟨k1, k2, k3⟩ := ih (idx + 1) tr2 tr h2 hch2 hle2
        refine ⟨k1, fun x hx => ?_, ?_⟩
        · have := k2 x hx
          simpa [Nat.add_comm, Nat.add_assoc, Nat.add_left_comm] using this
        · have hlen : tr2.progressUpdates.length = tr0.progressUpdates.length :=
            congrArg List.length hp
          omega
      · have hch2 : List.Chain' (· < ·) tr2.progressUpdates := by
          rw [hp]
          refine List.Chain'.append hch (List.chain'_singleton (idx + 1)) ?_
          intro x hx y hy
          have hxmem : x ∈ tr0.progressUpdates := List.mem_of_getLast?_eq_some hx
          have hy2 : y = idx + 1 := by
            have := hy
            simp only [List.head?_cons, Option.mem_def, Option.some.injEq] at this
            omega
          have := hle x hxmem
          omega
        have hle2 : ∀ x ∈ tr2.progressUpdates, x ≤ idx + 1 := by
          intro x hx
          rw [hp] at hx
          rcases List.mem_append.mp hx with hmem | hmem
          · exact Nat.le_trans (hle x hmem) (Nat.le_succ idx)
          · have : x = idx + 1 := by simpa using hmem
            omega
        obtain ⟨k1, k2, k3⟩ := ih (idx + 1) tr2 tr h2 hch2 hle2
        refine ⟨k1, fun x hx => ?_, ?_⟩
        · have := k2 x hx
          simpa [Nat.add_comm, Nat.add_assoc, Nat.add_left_comm] using this
        · have hlen : tr2.progressUpdates.length = tr0.progressUpdates.length + 1 := by
            rw [hp]
            simp
          omega

/-- C6 amended: progress is updated only after files that complete the full
pipeline successfully (a presented result): each successful batch trace holds
exactly one progress update per presented outcome - skipped and invalid files
advance nothing - and the updates that are emitted are strictly increasing
within the batch. -/
theorem c6_amended_progress_only_after_presented (files : List UploadedFile)
    (tr : BatchTrace)
    (h : processBatchAppText files = .ok tr ∨ processBatchApp2Text files = .ok tr) :
    List.Chain' (· < ·) tr.progressUpdates
    ∧ tr.progressUpdates.length = presentedCount tr.outcomes := by
  rcases h with h | h
  · have h2 : runBatch extract_text_app app_gemini_call 0 ⟨[], [], 0⟩ files = .ok tr := h
    have inv := runBatch_progress_invariant extract_text_app app_gemini_call
      files 0 ⟨[], [], 0⟩ tr h2 (by simp) (by simp)
    refine ⟨inv.1, ?_⟩
    have := inv.2.2
    simpa [presentedCount] using this
  · have h2 : runBatch extract_text_app2 app2_groq_call 0 ⟨[], [], 0⟩ files = .ok tr := h
    have inv := runBatch_progress_invariant extract_text_app2 app2_groq_call
      files 0 ⟨[], [], 0⟩ tr h2 (by simp) (by simp)
    refine ⟨inv.1, ?_⟩
    have := inv.2.2
    simpa [presentedCount] using this

/-- Witness for the C6 amended theorem: a successful single-file batch yields
the single strictly-increasing update list `[1]`, one update for its one
presented outcome. -/
theorem c6_amended_progress_only_after_presented_witness :
    List.Chain' (· < ·) ([1] : List Nat)
    ∧ ([1] : List Nat).length = presentedCount [("good.txt", .presented fullSwotDict)] :=
  c6_amended_progress_only_after_presented [goodGroqFile]
    ⟨[("good.txt", .presented fullSwotDict)], [1], 1⟩ (Or.inr rfl)

/-- C6 counterexample: a batch whose single file is skipped finishes with no
progress update at all, although the claim requires the indicator to advance
after every file, skipped or not. -/
theorem c6_counterexample_skip_emits_no_update :
    processBatchAppText [emptyFile] = .ok ⟨[("empty.txt", .skippedNoText)], [], 0⟩
    ∧ ([] : List Nat).length ≠ 1 :=
  ⟨rfl, by decide⟩

/-- The per-page loop issues one call per remaining page, always passing the
full image list, and leaves in `swot_analysis` the last call's result (or the
initial value when no pages remain). -/
lemma visionLoop_spec (mk : String → String) (bk : List String → String → PyVal)
    (allImages : List String) :
    ∀ (l : List String) (last : Option PyVal),
      (visionLoop mk bk allImages l last).1 = l.map (fun p => ⟨allImages, mk p⟩)
      ∧ (visionLoop mk bk allImages l last).2
        = (match l.getLast? with
           | none => last
           | some p => some (bk allImages (mk p))) := by
  intro l
  induction l with
  | nil => intro last; exact ⟨rfl, rfl⟩
  | cons p rest ih =>
    intro last
    refine ⟨?_, ?_⟩
    · show (⟨allImages, mk p⟩ :: (visionLoop mk bk allImages rest
          (some (bk allImages (mk p)))).1 : List VisionCall) = _
      rw [(ih (some (bk allImages (mk p)))).1]
      simp
    · show (visionLoop mk bk allImages rest (some (bk allImages (mk p)))).2 = _
      rw [(ih (some (bk allImages (mk p)))).2]
      cases rest with
      | nil => simp
      | cons q rs =>
        rw [List.getLast?_cons_cons]
        cases hgl : (q :: rs).getLast? with
        | none => simp at hgl
        | some r => rfl

/-- C9: in app.py's Vision path with n rendered page images, the backend is
invoked once per page (n calls), each call receives the full list of all n
images together with that page's prompt, and the value reaching validation is
exactly the final call's result - the earlier results are overwritten. -/
theorem c9_vision_full_list_last_result (mk : String → String)
    (bk : List String → String → PyVal) (images : List String) :
    (visionBranch mk bk images).1 = images.map (fun p => ⟨images, mk p⟩)
    ∧ (visionBranch mk bk images).1.length = images.length
    ∧ (∀ c ∈ (visionBranch mk bk images).1, c.images = images)
    ∧ (visionBranch mk bk images).2
      = (match images.getLast? with
         | none => none
         | some p => some (bk images (mk p))) := by
  obtain ⟨h1, h2⟩ := visionLoop_spec mk bk images images none
  have h1b : (visionBranch mk bk images).1
      = images.map (fun p => ⟨images, mk p⟩) := h1
  have h2b : (visionBranch mk bk images).2
      = (match images.getLast? with
         | none => none
         | some p => some (bk images (mk p))) := h2
  refine ⟨h1b, by rw [h1b]; simp, ?_, h2b⟩
  intro c hc
  rw [h1b] at hc
  obtain ⟨p, hp, hpc⟩ := List.mem_map.mp hc
  rw [← hpc]

/-- C10: app2's missing-credential guard applies only to Vision mode: in
Text-only mode, processing proceeds whether or not an OpenAI key was typed
(the session key is never consulted), and the loop's backend call uses the
Groq key loaded from the secret store at program start. -/
theorem c10_text_mode_needs_no_user_key (s : App2Session) (hasFiles : Bool)
    (h : s.analysis_type = "Text only") :
    app2_dispatch s hasFiles
      = (if hasFiles then some (.runLoop (.groqSecret s.groq_secret_key)) else none) := by
  unfold app2_dispatch app2_call_key
  rw [h]
  simp

/-- Witness for C10: Text-only mode with no typed OpenAI key still runs the
loop, with the secret-store Groq key. -/
theorem c10_text_mode_needs_no_user_key_witness :
    app2_dispatch ⟨"Text only", none, "gsk-secret"⟩ true
      = some (.runLoop (.groqSecret "gsk-secret")) :=
  c10_text_mode_needs_no_user_key ⟨"Text only", none, "gsk-secret"⟩ true rfl

/-- Witness for C1 at a concrete mapping carrying exactly the expected keys. -/
theorem c1_validator_pass_iff_keys_present_witness :
    validateSwot (.dict fullSwotEntries) = true :=
  (c1_validator_pass_iff_keys_present fullSwotEntries).1.mpr (by decide)

/-- Witness for C8 at the concrete example text. -/
theorem c8_word_count_is_token_count_witness :
    word_count "Alpha Beta Gamma" = 3
    ∧ word_count "Alpha Beta Gamma" = countTokenRuns "Alpha Beta Gamma".data true :=
  ⟨(c8_word_count_is_token_count "Alpha Beta Gamma" 100).2.2,
   (c8_word_count_is_token_count "Alpha Beta Gamma" 100).2.1⟩

/-- Witness for C9 at two concrete page images: two calls are issued and the
value reaching validation is the second call's result. -/
theorem c9_vision_full_list_last_result_witness :
    (visionBranch (fun p => p) (fun _ prompt => PyVal.str prompt)
        ["page_1.png", "page_2.png"]).1.length = 2
    ∧ (visionBranch (fun p => p) (fun _ prompt => PyVal.str prompt)
        ["page_1.png", "page_2.png"]).2 = some (.str "page_2.png") := by
  have h := c9_vision_full_list_last_result (fun p => p)
    (fun _ prompt => PyVal.str prompt) ["page_1.png", "page_2.png"]
  exact ⟨h.2.1, Eq.trans h.2.2.2 rfl⟩
